import Mathlib

/-!
Verification development for the star-alignment workflow resource manager.

Shallow embedding of `scripts/resource_manager.py` and
`scripts/advanced_features.py`: Python floats are modelled as rationals,
Python ints as integers (Python `//` on a positive literal divisor agrees
with `Int` division, which rounds toward negative infinity there), and the
JSON-ish telemetry dictionaries as an inductive value type `JVal`.
All definitions are translated from the source; the few definitions that
follow the specification's words instead are marked `Modelled from the spec`.
-/

/-- Python `int()` applied to a float value: truncation toward zero. -/
def pyInt (q : ℚ) : Int := if q < 0 then ⌈q⌉ else ⌊q⌋

/-- Job requirements specification (`resource_manager.py`, `JobRequirements`). -/
structure JobRequirements where
  cpus : Int
  memory_gb : Int
  walltime_hours : ℚ
  storage_gb : ℚ
  priority : Int := 1
  queue_preference : Option String := none
deriving DecidableEq, Repr

/-- Optimal resource allocation (`resource_manager.py`, `ResourceAllocation`). -/
structure ResourceAllocation where
  cpus : Int
  memory_gb : Int
  walltime_hours : ℚ
  queue : String
  estimated_cost : ℚ
  estimated_duration_hours : ℚ
  success_probability : ℚ
deriving DecidableEq, Repr

/-- One queue's entry in the default configuration
(`resource_manager.py`, `load_config`, lines 84-121). -/
structure QueueConfig where
  max_jobs : Int
  max_cpu_per_job : Int
  max_memory_per_job : Int
  max_walltime_hours : ℚ
  cost_per_cpu_hour : ℚ
  priority : Int
  speed_factor : ℚ
deriving DecidableEq, Repr

/-- The default queue catalog from `load_config` (insertion order preserved). -/
def defaultQueues : List (String × QueueConfig) :=
  [("normal", ⟨100, 16, 256, 168, 1/10, 1, 1⟩),
   ("hiprio", ⟨50, 32, 512, 72, 1/5, 2, 3/2⟩),
   ("long", ⟨20, 8, 128, 720, 1/20, 3, 7/10⟩),
   ("gpu", ⟨10, 16, 256, 48, 1/2, 4, 2⟩)]

/-- Indexing `config["hpc_environment"]["queues"][name]`. -/
def lookupQueue (name : String) : Option QueueConfig := defaultQueues.lookup name

/-- `AdvancedQueueManager.get_available_queues` (lines 653-663): every queue
whose per-job caps admit the requirement; the `queue_preference` field is
never consulted. -/
def get_available_queues (requirements : JobRequirements) : List String :=
  (defaultQueues.filter (fun p =>
    decide (requirements.cpus ≤ p.2.max_cpu_per_job) &&
    decide (requirements.memory_gb ≤ p.2.max_memory_per_job) &&
    decide (requirements.walltime_hours ≤ p.2.max_walltime_hours))).map Prod.fst

/-- `AdvancedQueueManager.get_total_queue_capacity`: sum of `max_jobs`. -/
def get_total_queue_capacity : Int :=
  (defaultQueues.map (fun p => p.2.max_jobs)).sum

/-- `CostOptimizer.estimate_job_cost` (lines 754-765); the per-CPU-hour rate
defaults to 0.1 when the queue is unknown. -/
def estimate_job_cost (cpus memory_gb : Int) (walltime_hours : ℚ) (queue : String) : ℚ :=
  let cost_per_cpu_hour := ((lookupQueue queue).map (fun qc => qc.cost_per_cpu_hour)).getD (1/10)
  let base_cost := (cpus : ℚ) * walltime_hours * cost_per_cpu_hour
  let memory_factor := 1 + ((memory_gb : ℚ) / 128) * (1/10)
  base_cost * memory_factor

/-- `ResourcePredictor._get_queue_speed_factor` (lines 714-722): a hardcoded
duration-factor table with default 1.0 — distinct from the configuration's
`speed_factor` values. -/
def get_queue_speed_factor (queue : String) : ℚ :=
  (([("normal", (1 : ℚ)), ("hiprio", 7/10), ("long", 3/2), ("gpu", 1/2)]).lookup queue).getD 1

/-- `ResourcePredictor._get_queue_reliability` (lines 724-732). -/
def get_queue_reliability (queue : String) : ℚ :=
  (([("normal", (19 : ℚ)/20), ("hiprio", 49/50), ("long", 9/10), ("gpu", 17/20)]).lookup queue).getD (19/20)

/-- `ResourcePredictor.predict_job_duration` (lines 694-699); `memory_gb` is
accepted but unused, exactly as in the source. -/
def predict_job_duration (requirements : JobRequirements) (cpus memory_gb : Int) (queue : String) : ℚ :=
  let base_duration := requirements.storage_gb / ((cpus : ℚ) * (1/10))
  let queue_factor := get_queue_speed_factor queue
  base_duration * queue_factor

/-- Modelled from the spec: the §4.6 duration formula with `speedFactor`
taken from the Queue Catalog profile of the queue (`speed_factor` in the
default configuration), for comparison with `predict_job_duration`. -/
def predictDurationSpec (requirements : JobRequirements) (cpus : Int) (queue : String) : ℚ :=
  requirements.storage_gb / ((cpus : ℚ) * (1/10)) *
    (((lookupQueue queue).map (fun qc => qc.speed_factor)).getD 1)

/-- Modelled from the spec as amended: the duration-factor table the code
actually applies — normal 1.0, hiprio 0.7, long 1.5, gpu 0.5, default 1.0 —
written as the spec would state it, for comparison with the source's
assoc-list lookup. -/
def durationFactorSpec (queue : String) : ℚ :=
  if queue = "normal" then 1
  else if queue = "hiprio" then 7/10
  else if queue = "long" then 3/2
  else if queue = "gpu" then 1/2
  else 1

/-- `ResourcePredictor.predict_job_success_probability` (lines 701-712). -/
def predict_job_success_probability (requirements : JobRequirements) (cpus memory_gb : Int)
    (queue : String) : ℚ :=
  let cpu_adequacy := min 1 ((cpus : ℚ) / (requirements.cpus : ℚ))
  let memory_adequacy := min 1 ((memory_gb : ℚ) / (requirements.memory_gb : ℚ))
  let base_probability := (cpu_adequacy + memory_adequacy) / 2
  base_probability * get_queue_reliability queue

/-- The loop body of `_calculate_optimal_allocation` (lines 388-424) for one
feasible queue: clamp the request to the queue's caps, estimate cost,
duration and success probability, and score with the configured weights
0.3 / 0.4 / 0.3. -/
def score_queue (requirements : JobRequirements) (queue_name : String) (qc : QueueConfig) :
    ℚ × ResourceAllocation :=
  let cpus := min requirements.cpus qc.max_cpu_per_job
  let memory_gb := min requirements.memory_gb qc.max_memory_per_job
  let walltime_hours := min requirements.walltime_hours qc.max_walltime_hours
  let estimated_cost := estimate_job_cost cpus memory_gb walltime_hours queue_name
  let estimated_duration := predict_job_duration requirements cpus memory_gb queue_name
  let success_prob := predict_job_success_probability requirements cpus memory_gb queue_name
  let score := (3/10) * estimated_cost + (4/10) * estimated_duration + (3/10) * (1 - success_prob)
  (score, ⟨cpus, memory_gb, walltime_hours, queue_name, estimated_cost,
           estimated_duration, success_prob⟩)

/-- The best-so-far loop of `_calculate_optimal_allocation`: starting from
`best_allocation = None` with `best_score = inf`, a candidate replaces the
incumbent only when its score is strictly smaller (ties keep the earlier
queue). -/
def pickBestAux : Option (ℚ × ResourceAllocation) → List (ℚ × ResourceAllocation) →
    Option (ℚ × ResourceAllocation)
  | best, [] => best
  | none, p :: rest => pickBestAux (some p) rest
  | some b, p :: rest => pickBestAux (if p.1 < b.1 then some p else some b) rest

/-- `AdvancedResourceManager._calculate_optimal_allocation` (lines 380-426):
returns `none` (Python `None`) when no queue is feasible. The inner
`lookupQueue` cannot fail because the names come from the same catalog. -/
def calculate_optimal_allocation (requirements : JobRequirements) : Option ResourceAllocation :=
  (pickBestAux none ((get_available_queues requirements).filterMap
    (fun queue_name => (lookupQueue queue_name).map (score_queue requirements queue_name)))).map
    Prod.snd

/-- Failure outcomes of `allocate_resources`. `attributeErrorNoneType` models
the `AttributeError` raised when `_validate_allocation` dereferences the
`None` returned for an empty feasible set (lines 428-439).
`noFeasibleQueue` is modelled from the spec's error taxonomy (§7:
`NoFeasibleQueueError`); no code path produces it. -/
inductive AllocError where
  | attributeErrorNoneType
  | noFeasibleQueue
deriving DecidableEq, Repr

/-- `AdvancedResourceManager._validate_allocation` (lines 428-439): when the
estimated cost exceeds the 100.0 ceiling, halve cpus and memory with floors
of 1 cpu and 8 GB and recompute the cost once. Python `//` on nonnegative-or-
negative ints floors, which `Int` division by the positive literal 2 also
does. -/
def validate_allocation (allocation : ResourceAllocation) : ResourceAllocation :=
  if allocation.estimated_cost > 100 then
    let cpus := max 1 (allocation.cpus / 2)
    let memory_gb := max 8 (allocation.memory_gb / 2)
    { allocation with
      cpus := cpus
      memory_gb := memory_gb
      estimated_cost := estimate_job_cost cpus memory_gb allocation.walltime_hours allocation.queue }
  else allocation

/-- `AdvancedResourceManager.allocate_resources` (lines 364-378): compute the
optimal allocation, then validate it. When the optimal allocation is `None`
the validation step raises `AttributeError` on the `None` dereference. -/
def allocate_resources (job_requirements : JobRequirements) :
    Except AllocError ResourceAllocation :=
  match calculate_optimal_allocation job_requirements with
  | none => .error .attributeErrorNoneType
  | some allocation => .ok (validate_allocation allocation)

/-- A history entry written by `_record_allocation` (lines 443-461), with the
requirement and allocation snapshots flattened; the wall-clock timestamp is
external and omitted. Note the source records the requirement without its
`queue_preference`. -/
structure AllocationRecord where
  req_cpus : Int
  req_memory_gb : Int
  req_walltime_hours : ℚ
  req_storage_gb : ℚ
  req_priority : Int
  alloc_cpus : Int
  alloc_memory_gb : Int
  alloc_walltime_hours : ℚ
  alloc_queue : String
  alloc_estimated_cost : ℚ
  alloc_estimated_duration_hours : ℚ
  alloc_success_probability : ℚ
deriving DecidableEq, Repr

/-- The record built by `_record_allocation` from a requirement/allocation
pair (lines 443-461). -/
def make_allocation_record (requirements : JobRequirements) (allocation : ResourceAllocation) :
    AllocationRecord :=
  ⟨requirements.cpus, requirements.memory_gb, requirements.walltime_hours,
   requirements.storage_gb, requirements.priority,
   allocation.cpus, allocation.memory_gb, allocation.walltime_hours, allocation.queue,
   allocation.estimated_cost, allocation.estimated_duration_hours,
   allocation.success_probability⟩

/-- `AdvancedResourceManager._record_allocation` (lines 441-465): append the
record to `history["job_history"]`, then truncate to the last 1000 entries
(`history[-1000:]`) when the cap is exceeded. -/
def record_allocation (job_history : List AllocationRecord) (requirements : JobRequirements)
    (allocation : ResourceAllocation) : List AllocationRecord :=
  let record := make_allocation_record requirements allocation
  let h := job_history ++ [record]
  if h.length > 1000 then h.drop (h.length - 1000) else h

/-- One chunk strategy from the default configuration (lines 124-145); the
string-valued `priority` field is never read by the sizing code and is
omitted. -/
structure StrategyConfig where
  max_chunk_size : Int
  storage_threshold : ℚ
deriving DecidableEq, Repr

/-- The default `chunk_strategies` table (lines 124-145). -/
def chunk_strategies : List (String × StrategyConfig) :=
  [("storage_optimized", ⟨500, 17/20⟩),
   ("time_optimized", ⟨2000, 19/20⟩),
   ("cost_optimized", ⟨1000, 9/10⟩),
   ("balanced", ⟨1000, 9/10⟩)]

/-- `CostOptimizer.calculate_cost_optimal_chunk_size` (lines 767-775):
`min(2000, max(500, total_samples // 20))`. -/
def calculate_cost_optimal_chunk_size (total_samples : Int) : Int :=
  min 2000 (max 500 (total_samples / 20))

/-- `ResourcePredictor.predict_optimal_chunk_size` (lines 678-692): mean of
`allocation.cpus * 100` over the storage-positive jobs among the last 100
history records, truncated by `int()`; 1000 when the history or that
selection is empty. The `strategy` argument is accepted but unused, as in
the source. -/
def predict_optimal_chunk_size (job_history : List AllocationRecord) (total_samples : Int)
    (strategy : String) : Int :=
  if job_history = [] then 1000
  else
    let recent_jobs := job_history.drop (job_history.length - 100)
    let similar_jobs := recent_jobs.filter (fun job => decide (job.req_storage_gb > 0))
    if similar_jobs = [] then 1000
    else pyInt (((similar_jobs.map (fun job => ((job.alloc_cpus * 100 : Int) : ℚ))).sum) /
      (similar_jobs.length : ℚ))

/-- The telemetry fields of `get_current_resources` consumed by the chunk
sizing computation: free storage in GB and available CPUs. -/
structure CurrentResources where
  storage_free_gb : ℚ
  cpu_available : Int
deriving DecidableEq, Repr

/-- `AdvancedResourceManager.calculate_optimal_chunk_size` (lines 318-362).
`none` telemetry models `get_current_resources()` returning `None`, in which
case the balanced strategy's cap is returned without consulting `strategy`;
an unknown strategy name raises `KeyError`, modelled as `none`. -/
def calculate_optimal_chunk_size (current_resources : Option CurrentResources)
    (job_history : List AllocationRecord) (total_samples : Int) (strategy : String) :
    Option Int :=
  match current_resources with
  | none => (chunk_strategies.lookup "balanced").map (fun sc => sc.max_chunk_size)
  | some res =>
    match chunk_strategies.lookup strategy with
    | none => none
    | some strategy_config =>
      let available_storage_gb := res.storage_free_gb
      let storage_per_sample_gb : ℚ := 3/20
      let max_samples_by_storage :=
        pyInt (available_storage_gb * strategy_config.storage_threshold / storage_per_sample_gb)
      let queue_capacity := get_total_queue_capacity
      let max_samples_by_queue := queue_capacity * strategy_config.max_chunk_size
      let available_cpus := res.cpu_available
      let max_samples_by_cpu := available_cpus * 20
      let optimal_cost_chunk := calculate_cost_optimal_chunk_size total_samples
      let predicted_optimal := predict_optimal_chunk_size job_history total_samples strategy
      let optimal_samples := min max_samples_by_storage (min max_samples_by_queue
        (min max_samples_by_cpu (min optimal_cost_chunk
          (min predicted_optimal strategy_config.max_chunk_size))))
      let min_chunk_size : Int := 100
      some (max optimal_samples min_chunk_size)

/-- A Python float that may be `float("inf")`: the time-to-failure estimate
returns infinity when there is no growth. -/
inductive FTime where
  | fin (hours : ℚ)
  | inf
deriving DecidableEq, Repr

/-- The shared risk staircase: `_get_risk_level` in `StorageFailurePredictor`
(lines 202-211) and, identically, in `ResourceExhaustionPredictor`
(lines 746-755). -/
def get_risk_level (probability : ℚ) : String :=
  if probability > 4/5 then "CRITICAL"
  else if probability > 1/2 then "HIGH"
  else if probability > 1/5 then "MODERATE"
  else "LOW"

/-- `StorageFailurePredictor._calculate_failure_probability` (lines 92-111),
with the externally sensed IO error count (`_get_io_error_rate`) passed as a
parameter. Thresholds: usage_critical 0.95, usage_warning 0.90,
growth_rate_critical 0.1, io_error_threshold 5. -/
def calculate_failure_probability (usage growth_rate : ℚ) (io_errors : Int) : ℚ :=
  let base0 : ℚ := 0
  let base1 := if usage > 19/20 then base0 + 7/10
    else if usage > 9/10 then base0 + 3/10 else base0
  let base2 := if growth_rate > 1/10 then base1 + 4/10 else base1
  let base3 := if io_errors > 5 then base2 + 2/10 else base2
  min base3 1

/-- `StorageFailurePredictor._estimate_time_to_failure` (lines 113-126):
infinity when growth is not positive, otherwise
`max(0, (1 - usage - 0.02) / growth_rate)`. -/
def estimate_time_to_failure (usage growth_rate : ℚ) : FTime :=
  if growth_rate ≤ 0 then .inf
  else
    let remaining_capacity := 1 - usage
    let safety_margin : ℚ := 1/50
    .fin (max 0 ((remaining_capacity - safety_margin) / growth_rate))

/-- The numeric fields of the dictionary returned by
`predict_storage_failure`; the preventive measures, disk health probe and
recommendation strings are external-IO driven or derived text. -/
structure StoragePrediction where
  failure_probability : ℚ
  time_to_failure_hours : FTime
  risk_level : String
deriving DecidableEq, Repr

/-- `StorageFailurePredictor.predict_storage_failure` (lines 38-90) on
numeric inputs: usage is clamped to [0, 1] and growth to nonnegative before
the probability, time and risk level are computed. -/
def predict_storage_failure (current_usage growth_rate : ℚ) (io_errors : Int) :
    StoragePrediction :=
  let usage := max 0 (min 1 current_usage)
  let growth := max 0 growth_rate
  let failure_probability := calculate_failure_probability usage growth io_errors
  { failure_probability
    time_to_failure_hours := estimate_time_to_failure usage growth
    risk_level := get_risk_level failure_probability }

/-- A Python/JSON value as handled by `ResourceExhaustionPredictor`. A
string carries the results of applying Python `float(s)` and `int(s)` to it
(`none` meaning the conversion raises `ValueError`); the text of produced
message strings is kept verbatim. -/
inductive JVal where
  | null
  | intv (n : Int)
  | num (q : ℚ)
  | str (s : String) (floatParse : Option ℚ) (intParse : Option Int)
  | obj (fields : List (String × JVal))
  | arr (items : List JVal)

/-- Dictionary key access returning `none` for absent keys or non-dicts. -/
def jget (v : JVal) (key : String) : Option JVal :=
  match v with
  | .obj fields => fields.lookup key
  | _ => none

/-- Whether a value is a dict containing the given key. -/
def hasKey (v : JVal) (key : String) : Bool :=
  match v with
  | .obj fields => fields.any (fun p => p.1 == key)
  | _ => false

/-- The string stored under a key, when present. -/
def getStrKey (v : JVal) (key : String) : Option String :=
  match jget v key with
  | some (.str s _ _) => some s
  | _ => none

/-- The usage-percent coercion shared by `_predict_cpu_exhaustion`,
`_predict_memory_exhaustion` and `_predict_storage_exhaustion`
(e.g. lines 331-339): strings go through `float()` (a parse failure makes
the whole try-block fall back to usage 0), non-numbers become 0, and the
result is clamped to [0, 100] then divided by 100. -/
def coerce_usage_percent (v : JVal) : ℚ :=
  match v with
  | .str _ (some q) _ => max 0 (min 100 q) / 100
  | .str _ none _ => 0
  | .intv n => max 0 (min 100 (n : ℚ)) / 100
  | .num q => max 0 (min 100 q) / 100
  | _ => max 0 (min 100 (0 : ℚ)) / 100

/-- The `available` core-count coercion of `_predict_cpu_exhaustion`
(lines 341-349): strings go through `int()` (parse failure falls back
to 1), non-numbers become 1, then `max(0, int(value))`. -/
def coerce_available_cores (v : JVal) : Int :=
  match v with
  | .str _ _ (some n) => max 0 n
  | .str _ _ none => 1
  | .intv n => max 0 n
  | .num q => max 0 (pyInt q)
  | _ => 1

/-- The `available_gb` / `free_gb` coercion of `_predict_memory_exhaustion`
and `_predict_storage_exhaustion` (e.g. lines 409-417): strings go through
`float()` (parse failure falls back to 1), non-numbers become 1, then
`max(0, float(value))`. -/
def coerce_available_gb (v : JVal) : ℚ :=
  match v with
  | .str _ (some q) _ => max 0 q
  | .str _ none _ => 1
  | .intv n => max 0 (n : ℚ)
  | .num q => max 0 q
  | _ => 1

/-- `ResourceExhaustionPredictor._estimate_cpu_exhaustion_time`
(lines 580-595). -/
def estimate_cpu_exhaustion_time (usage : ℚ) (available : Int) : ℚ :=
  if usage ≥ 19/20 then 1/10
  else if available ≤ 0 then 1/2
  else
    let remaining_capacity := 19/20 - usage
    if remaining_capacity ≤ 0 then 1/10
    else max (1/10) (remaining_capacity * 24)

/-- `ResourceExhaustionPredictor._estimate_memory_exhaustion_time`
(lines 597-610); `available_gb` is accepted but unused, as in the source. -/
def estimate_memory_exhaustion_time (usage : ℚ) (available_gb : ℚ) : ℚ :=
  if usage ≥ 19/20 then 1/10
  else
    let remaining_capacity := 19/20 - usage
    if remaining_capacity ≤ 0 then 1/10
    else max (1/10) (remaining_capacity * 48)

/-- `ResourceExhaustionPredictor._estimate_storage_exhaustion_time`
(lines 612-625); `free_gb` is accepted but unused, as in the source. -/
def estimate_storage_exhaustion_time (usage : ℚ) (free_gb : ℚ) : ℚ :=
  if usage ≥ 19/20 then 1/10
  else
    let remaining_capacity := 19/20 - usage
    if remaining_capacity ≤ 0 then 1/10
    else max (1/10) (remaining_capacity * 168)

/-- `ResourceExhaustionPredictor._predict_cpu_exhaustion` (lines 313-379).
Thresholds: cpu_critical 0.95, then 0.8 and 0.6. -/
def predict_cpu_exhaustion (cpu_info : JVal) : JVal :=
  match cpu_info with
  | .obj fields =>
    let usage := coerce_usage_percent ((fields.lookup "usage_percent").getD (.intv 0))
    let available := coerce_available_cores ((fields.lookup "available").getD (.intv 1))
    let exhaustion_prob : ℚ :=
      if usage > 19/20 then 4/5
      else if usage > 4/5 then 2/5
      else if usage > 3/5 then 1/10
      else 0
    let time_to_exhaustion := estimate_cpu_exhaustion_time usage available
    .obj [("exhaustion_probability", .num exhaustion_prob),
          ("time_to_exhaustion_hours", .num time_to_exhaustion),
          ("current_usage", .num usage),
          ("available_cores", .intv available),
          ("risk_level", .str (get_risk_level exhaustion_prob) none none)]
  | _ =>
    .obj [("error", .str "Invalid CPU data format" none none),
          ("exhaustion_probability", .num 0),
          ("time_to_exhaustion_hours", .num 0),
          ("current_usage", .num 0),
          ("available_cores", .intv 0),
          ("risk_level", .str "UNKNOWN" none none)]

/-- `ResourceExhaustionPredictor._predict_memory_exhaustion` (lines 381-447).
Thresholds: memory_critical 0.95, then 0.8 and 0.6. -/
def predict_memory_exhaustion (memory_info : JVal) : JVal :=
  match memory_info with
  | .obj fields =>
    let usage := coerce_usage_percent ((fields.lookup "usage_percent").getD (.intv 0))
    let available_gb := coerce_available_gb ((fields.lookup "available_gb").getD (.intv 1))
    let exhaustion_prob : ℚ :=
      if usage > 19/20 then 9/10
      else if usage > 4/5 then 1/2
      else if usage > 3/5 then 1/5
      else 0
    let time_to_exhaustion := estimate_memory_exhaustion_time usage available_gb
    .obj [("exhaustion_probability", .num exhaustion_prob),
          ("time_to_exhaustion_hours", .num time_to_exhaustion),
          ("current_usage", .num usage),
          ("available_gb", .num available_gb),
          ("risk_level", .str (get_risk_level exhaustion_prob) none none)]
  | _ =>
    .obj [("error", .str "Invalid memory data format" none none),
          ("exhaustion_probability", .num 0),
          ("time_to_exhaustion_hours", .num 0),
          ("current_usage", .num 0),
          ("available_gb", .intv 0),
          ("risk_level", .str "UNKNOWN" none none)]

/-- `ResourceExhaustionPredictor._predict_storage_exhaustion`
(lines 449-515). Thresholds: storage_critical 0.95 (probability 0.95), then
0.9 (0.7) and 0.8 (0.3). -/
def predict_storage_exhaustion (storage_info : JVal) : JVal :=
  match storage_info with
  | .obj fields =>
    let usage := coerce_usage_percent ((fields.lookup "usage_percent").getD (.intv 0))
    let free_gb := coerce_available_gb ((fields.lookup "free_gb").getD (.intv 1))
    let exhaustion_prob : ℚ :=
      if usage > 19/20 then 19/20
      else if usage > 9/10 then 7/10
      else if usage > 4/5 then 3/10
      else 0
    let time_to_exhaustion := estimate_storage_exhaustion_time usage free_gb
    .obj [("exhaustion_probability", .num exhaustion_prob),
          ("time_to_exhaustion_hours", .num time_to_exhaustion),
          ("current_usage", .num usage),
          ("free_gb", .num free_gb),
          ("risk_level", .str (get_risk_level exhaustion_prob) none none)]
  | _ =>
    .obj [("error", .str "Invalid storage data format" none none),
          ("exhaustion_probability", .num 0),
          ("time_to_exhaustion_hours", .num 0),
          ("current_usage", .num 0),
          ("free_gb", .intv 0),
          ("risk_level", .str "UNKNOWN" none none)]

/-- The integer coercion used on `pending`, `running` and `max_jobs` inside
`_predict_queue_exhaustion` (lines 538-545): `int(v)` for ints and strings
(`none` = `ValueError`), otherwise the stated fallback value. -/
def coerce_queue_int (v : JVal) (fallback : Int) : Option Int :=
  match v with
  | .intv n => some n
  | .str _ _ parsed => parsed
  | _ => some fallback

/-- The per-queue loop body of `_predict_queue_exhaustion` (lines 526-573):
non-dict queue data yields a bare error entry; a `ValueError` in any of the
three `int()` conversions resets all three to `pending = running = 0`,
`max_jobs = 100`. Threshold: queue_critical 0.9, then 0.8 and 0.6. -/
def queue_entry (queue_data : JVal) : JVal :=
  match queue_data with
  | .obj fields =>
    let triple : Int × Int × Int :=
      match coerce_queue_int ((fields.lookup "pending").getD (.intv 0)) 0,
            coerce_queue_int ((fields.lookup "running").getD (.intv 0)) 0,
            coerce_queue_int ((fields.lookup "max_jobs").getD (.intv 100)) 100 with
      | some p, some r, some m => (p, r, m)
      | _, _, _ => (0, 0, 100)
    let pending := max 0 triple.1
    let running := max 0 triple.2.1
    let max_jobs := max 1 triple.2.2
    let utilization := ((running : ℚ) + (pending : ℚ)) / (max_jobs : ℚ)
    let exhaustion_prob : ℚ :=
      if utilization > 9/10 then 4/5
      else if utilization > 4/5 then 2/5
      else if utilization > 3/5 then 1/10
      else 0
    .obj [("exhaustion_probability", .num exhaustion_prob),
          ("utilization", .num utilization),
          ("pending_jobs", .intv pending),
          ("running_jobs", .intv running),
          ("max_jobs", .intv max_jobs),
          ("risk_level", .str (get_risk_level exhaustion_prob) none none)]
  | _ => .obj [("error", .str "Invalid queue data" none none)]

/-- `ResourceExhaustionPredictor._predict_queue_exhaustion` (lines 517-578):
a dict mapping each queue name to its per-queue entry, or a bare error dict
when the queue info is not a dict. -/
def predict_queue_exhaustion (queue_info : JVal) : JVal :=
  match queue_info with
  | .obj fields => .obj (fields.map (fun p => (p.1, queue_entry p.2)))
  | _ => .obj [("error", .str "Invalid queue data format" none none)]

/-- The `risk_scores` table of `_assess_overall_risk` (line 651), applied to
a collected risk value; `dict.get(risk, 1)` supplies 1 for anything not in
the table (including non-string values). -/
def risk_score (v : JVal) : Int :=
  match v with
  | .str s _ _ =>
    if s = "LOW" then 1
    else if s = "MODERATE" then 2
    else if s = "HIGH" then 3
    else if s = "CRITICAL" then 4
    else if s = "UNKNOWN" then 0
    else 1
  | _ => 1

/-- `[k for k, v in risk_scores.items() if v == max_risk_score][0]`
(line 653): the first key, in the table's insertion order
LOW, MODERATE, HIGH, CRITICAL, UNKNOWN, whose score equals the maximum. -/
def level_of_score (m : Int) : String :=
  if m = 1 then "LOW"
  else if m = 2 then "MODERATE"
  else if m = 3 then "HIGH"
  else if m = 4 then "CRITICAL"
  else "UNKNOWN"

/-- The risk-collection pass of `_assess_overall_risk` (lines 632-645):
skip predictions carrying an `error` key, take `risk_level` when present,
and otherwise (the queues sub-dict) collect the `risk_level` of every
dict value that has one. -/
def collect_risks (predictions : List (String × JVal)) : List JVal :=
  predictions.foldr (fun p acc =>
    match p.2 with
    | .obj fields =>
      match fields.lookup "error", fields.lookup "risk_level" with
      | some _, _ => acc
      | none, some v => v :: acc
      | none, none =>
        (fields.filterMap (fun q =>
          match q.2 with
          | .obj qf => qf.lookup "risk_level"
          | _ => none)) ++ acc
    | _ => acc) []

/-- `ResourceExhaustionPredictor._assess_overall_risk` (lines 627-666). -/
def assess_overall_risk (predictions : List (String × JVal)) : List (String × JVal) :=
  let risks := collect_risks predictions
  let overall_risk_level :=
    if risks.isEmpty then "UNKNOWN"
    else level_of_score ((risks.map risk_score).foldl max 0)
  [("overall_risk_level", .str overall_risk_level none none),
   ("resource_risks", .arr risks),
   ("critical_resources", .arr (risks.filter (fun r =>
     match r with
     | .str s _ _ => s = "HIGH" || s = "CRITICAL"
     | _ => false)))]

/-- `ResourceExhaustionPredictor._get_exhaustion_recommendations`
(lines 668-709); the `predictions` argument is accepted but unused, as in
the source. -/
def get_exhaustion_recommendations (predictions : List (String × JVal))
    (overall_risk : List (String × JVal)) : List JVal :=
  let risk_level :=
    match overall_risk.lookup "overall_risk_level" with
    | some (.str s _ _) => s
    | some _ => ""
    | none => "UNKNOWN"
  if risk_level = "CRITICAL" then
    [.str "🚨 CRITICAL: Immediate resource management required" none none,
     .str "🚨 CRITICAL: Reduce job concurrency" none none,
     .str "🚨 CRITICAL: Implement emergency resource allocation" none none,
     .str "🚨 CRITICAL: Contact system administrators" none none]
  else if risk_level = "HIGH" then
    [.str "⚠️  HIGH RISK: Optimize resource allocation" none none,
     .str "⚠️  HIGH RISK: Reduce job queue size" none none,
     .str "⚠️  HIGH RISK: Monitor resource usage closely" none none,
     .str "⚠️  HIGH RISK: Plan resource expansion" none none]
  else if risk_level = "MODERATE" then
    [.str "📊 MODERATE RISK: Continue monitoring" none none,
     .str "📊 MODERATE RISK: Optimize job scheduling" none none,
     .str "📊 MODERATE RISK: Plan resource management" none none]
  else if risk_level = "UNKNOWN" then
    [.str "❓ UNKNOWN RISK: Check system status" none none,
     .str "❓ UNKNOWN RISK: Verify resource data" none none]
  else
    [.str "✅ LOW RISK: Normal operations" none none,
     .str "✅ LOW RISK: Regular monitoring sufficient" none none]

/-- The `exhaustion_probability` read-out used by
`_get_optimization_suggestions`: `pred.get("exhaustion_probability", 0)`. -/
def get_exhaustion_probability (entry : JVal) : ℚ :=
  match jget entry "exhaustion_probability" with
  | some (.num q) => q
  | some (.intv n) => (n : ℚ)
  | _ => 0

/-- `ResourceExhaustionPredictor._get_optimization_suggestions`
(lines 711-744). -/
def get_optimization_suggestions (predictions : List (String × JVal)) : List JVal :=
  let cpu_s :=
    match predictions.lookup "cpu" with
    | some p =>
      if hasKey p "error" = false ∧ get_exhaustion_probability p > 3/10 then
        [JVal.str "🖥️  CPU: Reduce job concurrency or increase CPU allocation" none none]
      else []
    | none => []
  let memory_s :=
    match predictions.lookup "memory" with
    | some p =>
      if hasKey p "error" = false ∧ get_exhaustion_probability p > 3/10 then
        [JVal.str "🧠 Memory: Optimize memory usage or increase memory allocation" none none]
      else []
    | none => []
  let storage_s :=
    match predictions.lookup "storage" with
    | some p =>
      if hasKey p "error" = false ∧ get_exhaustion_probability p > 3/10 then
        [JVal.str "💾 Storage: Clean up temporary files or expand storage" none none]
      else []
    | none => []
  let queue_s :=
    match predictions.lookup "queues" with
    | some (.obj qs) =>
      qs.filterMap (fun q =>
        match q.2 with
        | .obj qf =>
          if (qf.lookup "error").isNone ∧ get_exhaustion_probability (.obj qf) > 3/10 then
            some (JVal.str ("📋 Queue " ++ q.1 ++ ": Reduce pending jobs or use alternative queues")
              none none)
          else none
        | _ => none)
    | _ => []
  cpu_s ++ memory_s ++ storage_s ++ queue_s

/-- `ResourceExhaustionPredictor.predict_resource_exhaustion`
(lines 245-311): `None` and non-dict inputs yield degraded results with an
UNKNOWN overall risk; otherwise each resource section that is present and
not `None` is dispatched to its sub-predictor, and an absent or `None`
section becomes a bare `error` entry. -/
def predict_resource_exhaustion (current_resources : JVal) : JVal :=
  match current_resources with
  | .null =>
    .obj [("error", .str "No resource data provided" none none),
          ("predictions", .obj []),
          ("overall_risk", .obj [("overall_risk_level", .str "UNKNOWN" none none)]),
          ("recommendations", .arr [.str "No resource data available" none none]),
          ("optimization_suggestions", .arr [])]
  | .obj fields =>
    let cpu_pred :=
      match fields.lookup "cpu" with
      | some .null => JVal.obj [("error", .str "CPU data not available" none none)]
      | some v => predict_cpu_exhaustion v
      | none => JVal.obj [("error", .str "CPU data not available" none none)]
    let memory_pred :=
      match fields.lookup "memory" with
      | some .null => JVal.obj [("error", .str "Memory data not available" none none)]
      | some v => predict_memory_exhaustion v
      | none => JVal.obj [("error", .str "Memory data not available" none none)]
    let storage_pred :=
      match fields.lookup "storage" with
      | some .null => JVal.obj [("error", .str "Storage data not available" none none)]
      | some v => predict_storage_exhaustion v
      | none => JVal.obj [("error", .str "Storage data not available" none none)]
    let queues_pred :=
      match fields.lookup "lsf" with
      | some .null => JVal.obj [("error", .str "Queue data not available" none none)]
      | some v => predict_queue_exhaustion v
      | none => JVal.obj [("error", .str "Queue data not available" none none)]
    let predictions := [("cpu", cpu_pred), ("memory", memory_pred),
                        ("storage", storage_pred), ("queues", queues_pred)]
    let overall_risk := assess_overall_risk predictions
    .obj [("predictions", .obj predictions),
          ("overall_risk", .obj overall_risk),
          ("recommendations", .arr (get_exhaustion_recommendations predictions overall_risk)),
          ("optimization_suggestions", .arr (get_optimization_suggestions predictions))]
  | _ =>
    .obj [("error", .str "Invalid resource data format" none none),
          ("predictions", .obj []),
          ("overall_risk", .obj [("overall_risk_level", .str "UNKNOWN" none none)]),
          ("recommendations", .arr [.str "Invalid resource data format" none none]),
          ("optimization_suggestions", .arr [])]

/-- The telemetry-history truncation in `get_current_resources`
(lines 264-267): append the new snapshot (an opaque dictionary), then keep
only the last 1000 entries when the cap is exceeded. -/
def record_resource_usage (resource_usage : List JVal) (resources : JVal) : List JVal :=
  let h := resource_usage ++ [resources]
  if h.length > 1000 then h.drop (h.length - 1000) else h

/-- C1 (counterexample): at usage 0.996 and growth rate 0.05 with zero IO
errors, the storage failure prediction is risk level HIGH with probability
0.7 — not CRITICAL, and not ≥ 0.9: the 0.4 growth term requires a growth
rate strictly above 0.10, which 0.05 is not. -/
theorem storage_scenario_not_critical :
    (predict_storage_failure (996/1000) (5/100) 0).risk_level = "HIGH" ∧
    (predict_storage_failure (996/1000) (5/100) 0).risk_level ≠ "CRITICAL" ∧
    (predict_storage_failure (996/1000) (5/100) 0).failure_probability = 7/10 ∧
    ¬ (9/10 : ℚ) ≤ (predict_storage_failure (996/1000) (5/100) 0).failure_probability := by
  norm_num [predict_storage_failure, calculate_failure_probability, get_risk_level,
    estimate_time_to_failure, min_def, max_def]
  decide

/-- C1 (amended): for usage 0.996 and growth rate 0.05 with the IO-error
term at its zero default, `predict_storage_failure` returns failure
probability exactly 0.7 (only the usage term fires), risk level HIGH, and a
time-to-failure clamped to exactly 0 hours. -/
theorem storage_scenario_result :
    predict_storage_failure (996/1000) (5/100) 0 = ⟨7/10, .fin 0, "HIGH"⟩ := by
  norm_num [predict_storage_failure, calculate_failure_probability, get_risk_level,
    estimate_time_to_failure, min_def, max_def]

/-- C7 (counterexample): at usage 0.996 ≥ 0.95 and growth rate 0.05 ≥ 0 the
storage failure time estimate is exactly 0 hours — not a strictly positive
near-zero value: `max(0, (1 - 0.996 - 0.02)/0.05)` clamps the negative
quotient to 0. -/
theorem time_to_failure_zero_counterexample :
    estimate_time_to_failure (996/1000) (5/100) = .fin 0 ∧ ¬ (0 : ℚ) < 0 := by
  norm_num [estimate_time_to_failure, max_def]

/-- C7 (amended): for every usage u ≥ 0.95 the three per-resource exhaustion
time estimators return the strictly positive minimal value 0.1; the storage
failure time estimate is never negative, but for u ≥ 0.98 and positive
growth it is exactly 0, not strictly positive (and it is unbounded when
growth is not positive). -/
theorem exhaustion_time_minimal_values (u g a_gb f_gb : ℚ) (available : Int)
    (hu : 19/20 ≤ u) :
    estimate_cpu_exhaustion_time u available = 1/10 ∧
    estimate_memory_exhaustion_time u a_gb = 1/10 ∧
    estimate_storage_exhaustion_time u f_gb = 1/10 ∧
    (0 : ℚ) < 1/10 ∧
    (0 < g → ∀ t, estimate_time_to_failure u g = .fin t → 0 ≤ t) ∧
    (49/50 ≤ u → 0 < g → estimate_time_to_failure u g = .fin 0) := by
  refine ⟨?_, ?_, ?_, by norm_num, ?_, ?_⟩
  · simp [estimate_cpu_exhaustion_time, if_pos hu]
  · simp [estimate_memory_exhaustion_time, if_pos hu]
  · simp [estimate_storage_exhaustion_time, if_pos hu]
  · intro hg t ht
    rw [estimate_time_to_failure, if_neg (not_le.mpr hg)] at ht
    simp only [FTime.fin.injEq] at ht
    subst ht
    exact le_max_left 0 _
  · intro hu98 hg
    rw [estimate_time_to_failure, if_neg (not_le.mpr hg)]
    have hnum : (1 - u - 1/50) / g ≤ 0 :=
      div_nonpos_of_nonpos_of_nonneg (by linarith) (le_of_lt hg)
    simp only [max_eq_left hnum]

/-- C7 (witness): the amended statement at u = 0.996, g = 0.05. -/
theorem exhaustion_time_minimal_values_witness :
    estimate_cpu_exhaustion_time (996/1000) 0 = 1/10 ∧
    estimate_memory_exhaustion_time (996/1000) 0 = 1/10 ∧
    estimate_storage_exhaustion_time (996/1000) 0 = 1/10 ∧
    estimate_time_to_failure (996/1000) (5/100) = .fin 0 := by
  have h := exhaustion_time_minimal_values (996/1000) (5/100) 0 0 0 (by norm_num)
  exact ⟨h.1, h.2.1, h.2.2.1, h.2.2.2.2.2 (by norm_num) (by norm_num)⟩

/-- C3 (counterexample): a requirement exceeding every queue's caps makes
`allocate_resources` fail with the `AttributeError` from dereferencing the
`None` optimal allocation — not with a `NoFeasibleQueueError`, which exists
nowhere in the code. -/
theorem infeasible_failure_mode_counterexample :
    allocate_resources ⟨1000, 1000, 1000, 1, 1, none⟩ = .error .attributeErrorNoneType ∧
    (Except.error AllocError.attributeErrorNoneType :
      Except AllocError ResourceAllocation) ≠ .error .noFeasibleQueue := by
  exact ⟨rfl, by intro h; injection h with h; exact AllocError.noConfusion h⟩

/-- C3 (amended): whenever the feasible queue set is empty the allocation
fails, but with the unhandled `AttributeError` of `_validate_allocation`
dereferencing `None` rather than an explicit `NoFeasibleQueueError`. -/
theorem empty_feasible_set_attribute_error (requirements : JobRequirements)
    (h : get_available_queues requirements = []) :
    allocate_resources requirements = .error .attributeErrorNoneType := by
  unfold allocate_resources calculate_optimal_allocation
  rw [h]
  rfl

/-- C3 (witness): the amended statement at a concrete requirement whose
cpus, memory and walltime exceed every queue's caps. -/
theorem empty_feasible_set_attribute_error_witness :
    allocate_resources ⟨1000, 1000, 1000, 1, 1, none⟩ = .error .attributeErrorNoneType :=
  empty_feasible_set_attribute_error ⟨1000, 1000, 1000, 1, 1, none⟩ rfl

/-- C8 (counterexample): for a 1 GB requirement on 10 cpus in queue
`hiprio`, the code predicts 0.7 hours while the spec's formula with the
Queue Catalog's `speed_factor` (hiprio 1.5) gives 1.5 hours: the code uses
its own hardcoded factor table, not the configured `speed_factor`. -/
theorem duration_speed_factor_counterexample :
    predict_job_duration ⟨8, 128, 72, 1, 1, none⟩ 10 128 "hiprio" = 7/10 ∧
    predictDurationSpec ⟨8, 128, 72, 1, 1, none⟩ 10 "hiprio" = 3/2 ∧
    predict_job_duration ⟨8, 128, 72, 1, 1, none⟩ 10 128 "hiprio" ≠
      predictDurationSpec ⟨8, 128, 72, 1, 1, none⟩ 10 "hiprio" := by
  simp [predict_job_duration, predictDurationSpec, get_queue_speed_factor,
    lookupQueue, defaultQueues, List.lookup]
  norm_num

/-- C8 (amended): for every requirement, cpu count and catalog queue, the
predicted duration equals `storage_gb / (cpus * 0.1)` times the hardcoded
factor normal 1.0 / hiprio 0.7 / long 1.5 / gpu 0.5 — roughly the
reciprocal of the configured `speed_factor`, not the `speed_factor`
itself. -/
theorem duration_uses_hardcoded_factor (requirements : JobRequirements)
    (cpus memory_gb : Int) (queue : String)
    (h : queue ∈ ["normal", "hiprio", "long", "gpu"]) :
    predict_job_duration requirements cpus memory_gb queue =
      requirements.storage_gb / ((cpus : ℚ) * (1/10)) * durationFactorSpec queue := by
  simp only [List.mem_cons, List.not_mem_nil, or_false] at h
  rcases h with rfl | rfl | rfl | rfl <;>
    simp [predict_job_duration, get_queue_speed_factor, durationFactorSpec, List.lookup]

/-- C8 (witness): the amended statement at queue `hiprio` with a 1 GB
requirement on 10 cpus. -/
theorem duration_uses_hardcoded_factor_witness :
    predict_job_duration ⟨8, 128, 72, 1, 1, none⟩ 10 128 "hiprio" =
      (1 : ℚ) / ((10 : ℚ) * (1/10)) * durationFactorSpec "hiprio" :=
  duration_uses_hardcoded_factor ⟨8, 128, 72, 1, 1, none⟩ 10 128 "hiprio" (by decide)

/-- C9: both history stores — the telemetry list truncated in
`get_current_resources` and the allocation list truncated in
`_record_allocation` — hold at most 1000 entries after every record
operation, and the surviving entries are exactly the most-recent suffix of
the appended list: eviction is strictly oldest-first and preserves order. -/
theorem history_cap_and_fifo :
    (∀ (h : List JVal) (x : JVal),
      (record_resource_usage h x).length ≤ 1000 ∧
      record_resource_usage h x = (h ++ [x]).drop ((h ++ [x]).length - 1000)) ∧
    (∀ (h : List AllocationRecord) (req : JobRequirements) (a : ResourceAllocation),
      (record_allocation h req a).length ≤ 1000 ∧
      record_allocation h req a =
        (h ++ [make_allocation_record req a]).drop
          ((h ++ [make_allocation_record req a]).length - 1000)) := by
  constructor
  · intro h x
    simp only [record_resource_usage]
    by_cases hc : (h ++ [x]).length > 1000
    · rw [if_pos hc]
      refine ⟨?_, rfl⟩
      rw [List.length_drop]
      omega
    · rw [if_neg hc]
      have h0 : (h ++ [x]).length - 1000 = 0 := by omega
      rw [h0, List.drop_zero]
      exact ⟨by omega, rfl⟩
  · intro h req a
    simp only [record_allocation]
    by_cases hc : (h ++ [make_allocation_record req a]).length > 1000
    · rw [if_pos hc]
      refine ⟨?_, rfl⟩
      rw [List.length_drop]
      omega
    · rw [if_neg hc]
      have h0 : (h ++ [make_allocation_record req a]).length - 1000 = 0 := by omega
      rw [h0, List.drop_zero]
      exact ⟨by omega, rfl⟩

/-- C10: two requirements differing only in the optional `queue_preference`
field receive identical allocations — the preference is never read by
feasibility filtering, scoring, validation, or any other step of
`allocate_resources`. -/
theorem queue_preference_noninterference :
    ∀ (requirements : JobRequirements) (pref : Option String),
      allocate_resources { requirements with queue_preference := pref } =
        allocate_resources requirements := by
  intro r pref
  cases r
  rfl

/-- C6 (counterexample): on input `{"lsf": {"q1": None}}` prediction
completes, but the `cpu` prediction entry (the section is absent) and the
per-queue entry for `q1` (its data is `None`, not a dict) are bare
`error` objects carrying no `risk_level` field. -/
theorem exhaustion_missing_risklevel_counterexample :
    ((jget (predict_resource_exhaustion (.obj [("lsf", .obj [("q1", .null)])]))
        "predictions").bind (fun p => jget p "cpu")).map
      (fun e => hasKey e "risk_level") = some false ∧
    ((jget (predict_resource_exhaustion (.obj [("lsf", .obj [("q1", .null)])]))
        "predictions").bind (fun p => (jget p "queues").bind (fun q => jget q "q1"))).map
      (fun e => hasKey e "risk_level") = some false := by
  exact ⟨rfl, rfl⟩

/-- C6 (amended): exhaustion prediction always completes and returns a
result object with `predictions` and `overall_risk` fields; every
sub-predictor result — for any input value whatsoever — carries a
`risk_level` field (`UNKNOWN` when the section data is not a dict), and so
does every per-queue entry whose queue data is a dict; but the dispatch
level emits bare `error` entries without `risk_level` for absent or `None`
sections, and so does a per-queue entry whose data is not a dict. -/
theorem exhaustion_prediction_risklevel_fields :
    (∀ v : JVal, hasKey (predict_cpu_exhaustion v) "risk_level" = true) ∧
    (∀ v : JVal, hasKey (predict_memory_exhaustion v) "risk_level" = true) ∧
    (∀ v : JVal, hasKey (predict_storage_exhaustion v) "risk_level" = true) ∧
    (∀ fields : List (String × JVal), hasKey (queue_entry (.obj fields)) "risk_level" = true) ∧
    (getStrKey (predict_cpu_exhaustion .null) "risk_level" = some "UNKNOWN") ∧
    (hasKey (queue_entry .null) "risk_level" = false) ∧
    (∀ v : JVal, hasKey (predict_resource_exhaustion v) "predictions" = true ∧
      hasKey (predict_resource_exhaustion v) "overall_risk" = true) := by
  refine ⟨fun v => ?_, fun v => ?_, fun v => ?_, fun fields => rfl, rfl, rfl, fun v => ?_⟩
  · cases v <;> rfl
  · cases v <;> rfl
  · cases v <;> rfl
  · cases v <;> exact ⟨rfl, rfl⟩

/-- Shared evaluation: with ample telemetry (10000 GB free, 1000 cpus),
empty history, 10000 items and the balanced strategy, the chunk size
computation yields 500 — the cost-optimal term binds. -/
theorem chunk_balanced_ample_eval :
    calculate_optimal_chunk_size (some ⟨10000, 1000⟩) [] 10000 "balanced" = some 500 := by
  have hb : chunk_strategies.lookup "balanced" = some ⟨1000, 9/10⟩ := rfl
  have hs : pyInt ((10000 : ℚ) * (9/10) / (3/20)) = 60000 := by norm_num [pyInt]
  have h180 : get_total_queue_capacity = 180 := rfl
  have hcost : calculate_cost_optimal_chunk_size 10000 = 500 := rfl
  have hpred : predict_optimal_chunk_size [] 10000 "balanced" = 1000 := rfl
  simp only [calculate_optimal_chunk_size, hb]
  rw [hs, h180, hcost, hpred]
  decide

/-- C4 (counterexample): for totalItems 10000 with ample storage and CPUs
and the balanced strategy, the computed chunk size is 500, not 1000: the
cost-optimal term `min(2000, max(500, 10000 // 20)) = 500` binds before the
strategy cap does. -/
theorem chunk_scenario_counterexample :
    calculate_optimal_chunk_size (some ⟨10000, 1000⟩) [] 10000 "balanced" = some 500 ∧
    (500 : Int) ≠ 1000 :=
  ⟨chunk_balanced_ample_eval, by decide⟩

/-- C4 (amended): for totalItems 10000 with the balanced strategy, empty
history, and any telemetry whose storage and CPU terms are at least 500,
the chunk size is exactly 500 — the cost-optimal term is the binding
constraint. -/
theorem chunk_scenario_cost_binds (res : CurrentResources)
    (hs : 500 ≤ pyInt (res.storage_free_gb * (9/10) / (3/20)))
    (hc : 500 ≤ res.cpu_available * 20) :
    calculate_optimal_chunk_size (some res) [] 10000 "balanced" = some 500 := by
  have hb : chunk_strategies.lookup "balanced" = some ⟨1000, 9/10⟩ := rfl
  have h180 : get_total_queue_capacity = 180 := rfl
  have hcost : calculate_cost_optimal_chunk_size 10000 = 500 := rfl
  have hpred : predict_optimal_chunk_size [] 10000 "balanced" = 1000 := rfl
  simp only [calculate_optimal_chunk_size, hb]
  rw [h180, hcost, hpred]
  congr 1
  omega

/-- C4 (witness): the amended statement at the ample telemetry sample. -/
theorem chunk_scenario_cost_binds_witness :
    calculate_optimal_chunk_size (some ⟨10000, 1000⟩) [] 10000 "balanced" = some 500 :=
  chunk_scenario_cost_binds ⟨10000, 1000⟩ (by norm_num [pyInt]) (by norm_num)

/-- C5 (counterexample): on the degraded no-telemetry path the chunk size
computation returns the balanced cap 1000 for the `storage_optimized`
strategy, whose own cap is 500 — outside the claimed
[minChunkSize, strategy.maxChunkSize] interval. -/
theorem chunk_fallback_exceeds_cap_counterexample :
    calculate_optimal_chunk_size none [] 10000 "storage_optimized" = some 1000 ∧
    chunk_strategies.lookup "storage_optimized" = some ⟨500, 17/20⟩ ∧
    ¬ ((1000 : Int) ≤ 500) :=
  ⟨rfl, rfl, by decide⟩

/-- C5 (amended): whenever telemetry is available, the chunk size lies
within [100, strategy.maxChunkSize] for every configured strategy, every
history and every totalItems; the degraded no-telemetry path instead
returns the balanced cap 1000 regardless of the requested strategy. -/
theorem chunk_size_within_bounds (res : CurrentResources) (history : List AllocationRecord)
    (total_samples : Int) (strategy : String) (sc : StrategyConfig) (k : Int)
    (hsc : chunk_strategies.lookup strategy = some sc)
    (hk : calculate_optimal_chunk_size (some res) history total_samples strategy = some k) :
    100 ≤ k ∧ k ≤ sc.max_chunk_size := by
  have hmax : 100 ≤ sc.max_chunk_size := by
    simp only [chunk_strategies, List.lookup] at hsc
    repeat' split at hsc
    all_goals first
      | (injection hsc with h; subst h; decide)
      | (injection hsc)
  simp only [calculate_optimal_chunk_size, hsc, Option.some.injEq] at hk
  omega

/-- C5 (witness): the amended statement at the ample telemetry sample with
the balanced strategy, where the computed size is 500. -/
theorem chunk_size_within_bounds_witness :
    100 ≤ (500 : Int) ∧ (500 : Int) ≤ (StrategyConfig.mk 1000 (9/10)).max_chunk_size :=
  chunk_size_within_bounds ⟨10000, 1000⟩ [] 10000 "balanced" ⟨1000, 9/10⟩ 500 rfl
    (by
      have hb : chunk_strategies.lookup "balanced" = some ⟨1000, 9/10⟩ := rfl
      have hs : pyInt ((10000 : ℚ) * (9/10) / (3/20)) = 60000 := by norm_num [pyInt]
      have h180 : get_total_queue_capacity = 180 := rfl
      have hcost : calculate_cost_optimal_chunk_size 10000 = 500 := rfl
      have hpred : predict_optimal_chunk_size [] 10000 "balanced" = 1000 := rfl
      simp only [calculate_optimal_chunk_size, hb]
      rw [hs, h180, hcost, hpred]
      decide)

/-- The best-so-far loop only ever returns its initial incumbent or an
element of the candidate list. -/
theorem pickBestAux_mem :
    ∀ (l : List (ℚ × ResourceAllocation)) (acc : Option (ℚ × ResourceAllocation))
      (r : ℚ × ResourceAllocation), pickBestAux acc l = some r → acc = some r ∨ r ∈ l := by
  intro l
  induction l with
  | nil =>
    intro acc r h
    cases acc with
    | none => exact absurd h (by simp [pickBestAux])
    | some b => left; exact h.symm ▸ rfl
  | cons p rest ih =>
    intro acc r h
    cases acc with
    | none =>
      rcases ih (some p) r h with h1 | hm
      · right; exact (Option.some.injEq _ _ ▸ h1 : p = r) ▸ List.mem_cons_self _ _
      · right; exact List.mem_cons_of_mem _ hm
    | some b =>
      rcases ih _ r h with h1 | hm
      · by_cases hlt : p.1 < b.1
        · rw [if_pos hlt] at h1
          right
          exact (Option.some.injEq _ _ ▸ h1 : p = r) ▸ List.mem_cons_self _ _
        · rw [if_neg hlt] at h1
          left
          exact h1
      · right; exact List.mem_cons_of_mem _ hm

/-- A queue name returned by `get_available_queues` resolves in the catalog
to a profile that admits the requirement, and every catalog profile allows
at least 1 cpu and 8 GB (the corrective-pass floors). -/
theorem mem_available_queues {requirements : JobRequirements} {name : String}
    (h : name ∈ get_available_queues requirements) :
    ∃ qc, lookupQueue name = some qc ∧
      requirements.cpus ≤ qc.max_cpu_per_job ∧
      requirements.memory_gb ≤ qc.max_memory_per_job ∧
      requirements.walltime_hours ≤ qc.max_walltime_hours ∧
      1 ≤ qc.max_cpu_per_job ∧ 8 ≤ qc.max_memory_per_job := by
  unfold get_available_queues at h
  rw [List.mem_map] at h
  obtain ⟨p, hpf, hp1⟩ := h
  rw [List.mem_filter] at hpf
  obtain ⟨hmem, hcond⟩ := hpf
  simp only [Bool.and_eq_true, decide_eq_true_eq] at hcond
  obtain ⟨⟨h1, h2⟩, h3⟩ := hcond
  simp only [defaultQueues, List.mem_cons, List.not_mem_nil, or_false] at hmem
  rcases hmem with rfl | rfl | rfl | rfl <;> subst hp1 <;>
    exact ⟨_, rfl, h1, h2, h3, by decide, by decide⟩

/-- The corrective pass of `_validate_allocation` keeps the chosen queue and
keeps every resource field within that queue's caps, given the floors fit
under the caps. -/
theorem validate_allocation_caps {a : ResourceAllocation} {qc : QueueConfig}
    (h1 : a.cpus ≤ qc.max_cpu_per_job) (h2 : a.memory_gb ≤ qc.max_memory_per_job)
    (h3 : a.walltime_hours ≤ qc.max_walltime_hours)
    (hb1 : 1 ≤ qc.max_cpu_per_job) (hb2 : 8 ≤ qc.max_memory_per_job) :
    (validate_allocation a).queue = a.queue ∧
    (validate_allocation a).cpus ≤ qc.max_cpu_per_job ∧
    (validate_allocation a).memory_gb ≤ qc.max_memory_per_job ∧
    (validate_allocation a).walltime_hours ≤ qc.max_walltime_hours := by
  unfold validate_allocation
  split
  · refine ⟨rfl, ?_, ?_, h3⟩
    · show max 1 (a.cpus / 2) ≤ qc.max_cpu_per_job
      omega
    · show max 8 (a.memory_gb / 2) ≤ qc.max_memory_per_job
      omega
  · exact ⟨rfl, h1, h2, h3⟩

/-- C2: every allocation successfully returned by `allocate_resources`
respects its chosen queue's configured per-job caps on cpus, memory and
walltime — including after the cost-ceiling corrective pass, whose floors
of 1 cpu and 8 GB lie below every configured cap. -/
theorem allocation_within_queue_caps (requirements : JobRequirements) (a : ResourceAllocation)
    (h : allocate_resources requirements = .ok a) :
    ∃ qc, lookupQueue a.queue = some qc ∧
      a.cpus ≤ qc.max_cpu_per_job ∧
      a.memory_gb ≤ qc.max_memory_per_job ∧
      a.walltime_hours ≤ qc.max_walltime_hours := by
  unfold allocate_resources at h
  cases hc : calculate_optimal_allocation requirements with
  | none => rw [hc] at h; exact Except.noConfusion h
  | some a0 =>
    rw [hc] at h
    have ha : a = validate_allocation a0 := by
      injection h with h
      exact h.symm
    unfold calculate_optimal_allocation at hc
    rw [Option.map_eq_some'] at hc
    obtain ⟨pr, hpick, hpr2⟩ := hc
    rcases pickBestAux_mem _ _ _ hpick with habs | hin
    · exact absurd habs (by simp)
    · rw [List.mem_filterMap] at hin
      obtain ⟨name, hname, hfn⟩ := hin
      rw [Option.map_eq_some'] at hfn
      obtain ⟨qc, hlook, hsq⟩ := hfn
      obtain ⟨qc', hlook', hf1, hf2, hf3, hb1', hb2'⟩ := mem_available_queues hname
      rw [hlook] at hlook'
      have hqq : qc' = qc := by injection hlook' with h; exact h.symm
      subst hqq
      have ha0 : a0 = (score_queue requirements name qc').2 := by rw [hsq, hpr2]
      subst ha0
      have hv := @validate_allocation_caps ((score_queue requirements name qc').2) qc'
        (min_le_right _ _) (min_le_right _ _) (min_le_right _ _) hb1' hb2'
      refine ⟨qc', ?_, ?_, ?_, ?_⟩
      · rw [ha, hv.1]
        exact hlook
      · rw [ha]; exact hv.2.1
      · rw [ha]; exact hv.2.2.1
      · rw [ha]; exact hv.2.2.2

/-- C2 (witness): the caps invariant at the repository's own test
requirement (8 cpus, 128 GB, 72 h, 5 GB storage), which the scorer sends to
the `long` queue at cost 31.68, duration 9.375 h, success probability 0.9,
below the cost ceiling. -/
theorem allocation_within_queue_caps_witness :
    ∃ qc, lookupQueue (ResourceAllocation.queue ⟨8, 128, 72, "long", 792/25, 75/8, 9/10⟩) =
        some qc ∧
      ResourceAllocation.cpus ⟨8, 128, 72, "long", 792/25, 75/8, 9/10⟩ ≤ qc.max_cpu_per_job ∧
      ResourceAllocation.memory_gb ⟨8, 128, 72, "long", 792/25, 75/8, 9/10⟩ ≤
        qc.max_memory_per_job ∧
      ResourceAllocation.walltime_hours ⟨8, 128, 72, "long", 792/25, 75/8, 9/10⟩ ≤
        qc.max_walltime_hours :=
  allocation_within_queue_caps ⟨8, 128, 72, 5, 1, none⟩ ⟨8, 128, 72, "long", 792/25, 75/8, 9/10⟩
    (by
      have hq : get_available_queues ⟨8, 128, 72, 5, 1, none⟩ = ["normal", "hiprio", "long"] :=
        rfl
      have ln : lookupQueue "normal" = some ⟨100, 16, 256, 168, 1/10, 1, 1⟩ := rfl
      have lh : lookupQueue "hiprio" = some ⟨50, 32, 512, 72, 1/5, 2, 3/2⟩ := rfl
      have ll : lookupQueue "long" = some ⟨20, 8, 128, 720, 1/20, 3, 7/10⟩ := rfl
      have sn : get_queue_speed_factor "normal" = 1 := rfl
      have sh : get_queue_speed_factor "hiprio" = 7/10 := rfl
      have sl : get_queue_speed_factor "long" = 3/2 := rfl
      have rn : get_queue_reliability "normal" = 19/20 := rfl
      have rh : get_queue_reliability "hiprio" = 49/50 := rfl
      have rl : get_queue_reliability "long" = 9/10 := rfl
      norm_num [allocate_resources, calculate_optimal_allocation, hq, validate_allocation,
        score_queue, estimate_job_cost, predict_job_duration, predict_job_success_probability,
        ln, lh, ll, sn, sh, sl, rn, rh, rl, pickBestAux, min_def, List.filterMap])
